import Mathlib

/-!
A shallow embedding of `src/line_app.py` (a LINE chat bot managing
"activities" with join/leave/delete flows) together with proofs about its
command dispatch, conversation-state machine and store mutations.

Python string primitives are modelled as structural recursions over
`String.data : List Char`; Python strings are sequences of code points, so
`List Char` is the exact carrier.  Fallible steps (a failing database
commit, a `KeyError`/`IndexError`/`ValueError`, the renderer indexing
`datetime.split()[1]`) are modelled in an exception monad
`Except AppState Out`; the error value carries the program state at the
point of the raise, which is what survives the `try/except` boundary at
the top of each event handler.
-/

namespace LineApp

/-! ### Python string primitives -/

/-- `pre in s` as a prefix: Python `str.startswith`. -/
def pyStartsWith (s pre : String) : Bool := pre.data.isPrefixOf s.data

/-- Substring containment over code points. -/
def containsSub (pat : List Char) : List Char → Bool
  | [] => pat.isEmpty
  | c :: cs => pat.isPrefixOf (c :: cs) || containsSub pat cs

/-- Python `pat in s` (substring containment). -/
def hasSub (s pat : String) : Bool := containsSub pat.data s.data

/-- The suffix following the first occurrence of `sep`, if any. -/
def afterFirst (sep : List Char) : List Char → Option (List Char)
  | [] => none
  | c :: cs =>
    if sep.isPrefixOf (c :: cs) then some ((c :: cs).drop sep.length)
    else afterFirst sep cs

/-- Everything before the next occurrence of `sep`. -/
def takeUntilSub (sep : List Char) : List Char → List Char
  | [] => []
  | c :: cs => if sep.isPrefixOf (c :: cs) then [] else c :: takeUntilSub sep cs

/-- Python `s.split(sep)` for a one-character separator (keeps empty parts). -/
def splitChar (sep : Char) : List Char → List (List Char)
  | [] => [[]]
  | c :: cs =>
    if c == sep then [] :: splitChar sep cs
    else
      match splitChar sep cs with
      | [] => [[c]]
      | h :: t => (c :: h) :: t

/-- Python `s.split(" ")`. -/
def pySplit (sep : Char) (s : String) : List String :=
  (splitChar sep s.data).map (fun l => ⟨l⟩)

/-- Python `s.strip()`. -/
def pyStrip (s : String) : String :=
  ⟨((s.data.dropWhile Char.isWhitespace).reverse.dropWhile Char.isWhitespace).reverse⟩

/-- Python `s[3:]` (by code point, as in CPython). -/
def pySlice3 (s : String) : String := ⟨s.data.drop 3⟩

/-- Python `int(s)` on a plain decimal numeral; `none` models `ValueError`. -/
def pyInt? (s : String) : Option Nat :=
  match s.data with
  | [] => none
  | l => l.foldl (fun acc c =>
      match acc with
      | some n => if c.isDigit then some (n * 10 + (c.toNat - 48)) else none
      | none => none) (some 0)

/-- Python `s.split(sep)[1]`; `none` models the `IndexError` when `sep`
does not occur. -/
def pySplitIndex1 (sep : String) (s : String) : Option String :=
  (afterFirst sep.data s.data).map (fun l => ⟨takeUntilSub sep.data l⟩)

/-- `int(data.split('&id=')[1])` — the id extraction shared by the
join/cancel/delete/view postback branches. -/
def parseId (data : String) : Option Nat :=
  (pySplitIndex1 "&id=" data).bind pyInt?

/-- Python `s.split()` with no argument: split on whitespace runs,
discarding empty fields. -/
def wsSplitAux : List Char → List Char → List (List Char)
  | [], acc => if acc.isEmpty then [] else [acc.reverse]
  | c :: cs, acc =>
    if c.isWhitespace then
      if acc.isEmpty then wsSplitAux cs []
      else acc.reverse :: wsSplitAux cs []
    else wsSplitAux cs (c :: acc)

def pyWsSplit (s : String) : List String := (wsSplitAux s.data []).map (fun l => ⟨l⟩)

/-- Python `"\n".join l`. -/
def joinWith (sep : String) : List String → String
  | [] => ""
  | [s] => s
  | s :: rest => s ++ sep ++ joinWith sep rest

/-! ### Data model (`Activity`, `Participant`, `user_states`) -/

/-- Row of the `activity` table. -/
structure Activity where
  id : Nat
  name : String
  datetime : String
  creator_id : String
deriving Repr, DecidableEq

/-- Row of the `participant` table. -/
structure Participant where
  id : Nat
  user_id : String
  user_name : String
  activity_id : Nat
deriving Repr, DecidableEq

/-- The relational store: the two tables plus the autoincrement
counters for their primary keys. -/
structure DB where
  activities : List Activity
  participants : List Participant
  nextAid : Nat
  nextPid : Nat
deriving Repr, DecidableEq

/-- One value of the `user_states` dict:
`{'step': 'datetime', 'name': activity_name}`. -/
structure UserState where
  step : String
  name : String
deriving Repr, DecidableEq

/-- Whole-program mutable state: the store plus the process-wide
`user_states` dict (modelled as an association list). -/
structure AppState where
  db : DB
  user_states : List (String × UserState)
deriving Repr, DecidableEq

/-- Dict lookup `user_states.get(uid)` / `uid in user_states`. -/
def lookupState (us : List (String × UserState)) (uid : String) : Option UserState :=
  (us.find? (fun e => e.1 == uid)).map (fun e => e.2)

/-- Dict assignment `user_states[uid] = st`. -/
def setState (us : List (String × UserState)) (uid : String) (st : UserState) :
    List (String × UserState) :=
  (uid, st) :: us.filter (fun e => e.1 != uid)

/-- Dict deletion `del user_states[uid]`. -/
def delState (us : List (String × UserState)) (uid : String) :
    List (String × UserState) :=
  us.filter (fun e => e.1 != uid)

/-! ### Outbound messages and rendering -/

/-- An outbound payload: a `TextMessage` or a `FlexMessage`
(identified by its alt text; the visual schema is a rendering concern). -/
inductive Msg where
  | text (s : String)
  | flex (altText : String)
deriving Repr, DecidableEq

/-- `create_datetime_picker_flex()`. -/
def create_datetime_picker_flex : Msg := .flex "選擇副本時間"

/-- The two-button confirmation card sent for「刪除所有副本」. -/
def deleteAllConfirmCard : Msg := .flex "確認刪除所有副本？"

/-- `create_activities_list_flex()`.  Returns `none` when the rendering
raises: it evaluates `activity.datetime.split()[0]` and `[1]`, which is an
`IndexError` unless every datetime has at least two whitespace-separated
fields. -/
def create_activities_list_flex (db : DB) : Option Msg :=
  if db.activities.isEmpty then some (.text "目前沒有任何副本")
  else if db.activities.all (fun a => 2 ≤ (pyWsSplit a.datetime).length) then
    some (.flex "副本列表")
  else none

/-- The help text replied to「說明」.  The last two lines are adjacent
string literals in the source with no newline between them, so they are
concatenated. -/
def helpText : String :=
  "📝 指令說明\n-------------------\n1. 建立副本：\n➜ 副本 [副本名稱]\n例如：副本 打牌\n\n" ++
  "2. 查看副本列表：\n➜ 副本\n\n3. 副本功能：\n➜ 報名 - 參加副本\n➜ 取消 - 取消報名\n" ++
  "➜ 名單 - 查看報名名單\n➜ 移除 - 刪除副本(限創建者)\n➜ 刪除所有副本 - 清空所有副本列表 (需確認)\n" ++
  "➜ + [副本名稱] [人員名稱] - 新增特定人員到副本➜ - [副本名稱] [人員名稱] - 於副本名單中刪除特定人員"

/-! ### Command dispatch -/

/-- Intent of a text message: the `if/elif` chain of the second
(effective) `handle_text_message` registration, in source order.
The LINE SDK keeps one handler per event kind, so the later registration
replaces the earlier one. -/
inductive TIntent where
  | addP | help | deleteAllConfirm | removeP | createStart | list | silent
deriving Repr, DecidableEq

def classifyText (text : String) : TIntent :=
  if pyStartsWith text "+ " then .addP
  else if text == "說明" then .help
  else if text == "刪除所有副本" then .deleteAllConfirm
  else if pyStartsWith text "➜ - " then .removeP
  else if pyStartsWith text "副本 " then .createStart
  else if text == "副本" then .list
  else .silent

/-- Intent of a postback: the `if/elif` chain of `handle_postback`, each
test being Python substring containment on the raw `data`, in source
order. -/
inductive PAction where
  | selectDate | join | cancelJoin | deleteAct | viewParts
  | confirmDeleteAll | cancelDeleteAll | unknown
deriving Repr, DecidableEq

def classify (data : String) : PAction :=
  if hasSub data "action=select_date" then .selectDate
  else if hasSub data "action=join_activity" then .join
  else if hasSub data "action=cancel_join" then .cancelJoin
  else if hasSub data "action=delete_activity" then .deleteAct
  else if hasSub data "action=view_participants" then .viewParts
  else if hasSub data "action=confirm_delete_all" then .confirmDeleteAll
  else if hasSub data "action=cancel_delete_all" then .cancelDeleteAll
  else .unknown

/-! ### Event handlers -/

/-- Result of processing one event without raising: the new program
state, the replies emitted, and the number of `db.session.commit()`
transactions performed. -/
structure Out where
  state : AppState
  msgs : List Msg
  commits : Nat
deriving Repr, DecidableEq

/-- `prof` is the profile resolver (`messaging_api.get_profile`):
`none` models the lookup raising, in which case every call site falls
back to the raw user id.  `cf` is the fault oracle for
`db.session.commit()`: when true, every commit raises. -/
def resolveName (prof : String → Option String) (uid : String) : String :=
  (prof uid).getD uid

/-- The `+ [副本名稱] [人員名稱]` branch of the effective
`handle_text_message` registration. -/
def doAddParticipant (cf : Bool) (s : AppState) (uid text : String) :
    Except AppState Out :=
  match pySplit ' ' text with
  | [_, activity_name, new_participant_name] =>
    match s.db.activities.find? (fun a => a.name == activity_name) with
    | some activity =>
      match s.db.participants.find? (fun p =>
          p.activity_id == activity.id && p.user_name == new_participant_name) with
      | some _ =>
        .ok ⟨s, [.text ("➜" ++ activity_name ++ "：" ++ new_participant_name ++
              " 已存在報名名單中")], 0⟩
      | none =>
        if cf then .error s else
        let p : Participant := ⟨s.db.nextPid, uid, new_participant_name, activity.id⟩
        let db' : DB := { s.db with
          participants := s.db.participants ++ [p], nextPid := s.db.nextPid + 1 }
        let cnt := (db'.participants.filter (fun q => q.activity_id == activity.id)).length
        .ok ⟨⟨db', s.user_states⟩,
          [.text ("➜" ++ activity_name ++ "：" ++ new_participant_name ++
            " 已成功報名\n副本時間：" ++ activity.datetime ++
            "\n目前參加人數：" ++ toString cnt)], 1⟩
    | none =>
      .ok ⟨s, [.text ("找不到名為 " ++ activity_name ++ " 的副本")], 0⟩
  | _ => .ok ⟨s, [.text "指令格式錯誤。請使用：+ [副本名稱] [人員名稱]"], 0⟩

/-- The `➜ - [副本名稱] [人員名稱]` remove-participant branch. -/
def doRemoveParticipant (cf : Bool) (s : AppState) (text : String) :
    Except AppState Out :=
  match pySplit ' ' text with
  | [_, _, activity_name, participant_name] =>
    match s.db.activities.find? (fun a => a.name == activity_name) with
    | some activity =>
      match s.db.participants.find? (fun p =>
          p.activity_id == activity.id && p.user_name == participant_name) with
      | some part =>
        if cf then .error s else
        let db' : DB := { s.db with
          participants := s.db.participants.filter (fun q => q.id != part.id) }
        .ok ⟨⟨db', s.user_states⟩,
          [.text ("➜" ++ activity_name ++ "：" ++ participant_name ++
            " 已從副本名單中刪除")], 1⟩
      | none =>
        .ok ⟨s, [.text ("➜" ++ activity_name ++ "：找不到 " ++ participant_name ++
          " 的報名紀錄")], 0⟩
    | none =>
      .ok ⟨s, [.text ("找不到名為 " ++ activity_name ++ " 的副本")], 0⟩
  | _ => .ok ⟨s, [.text "指令格式錯誤。請使用：➜ - [副本名稱] [人員名稱]"], 0⟩

/-- The `副本 [名稱]` create-start branch: records the conversation state
`{'step': 'datetime', 'name': ...}` for the user and sends the date/time
picker; an empty stripped remainder yields a usage hint instead. -/
def doCreateStart (s : AppState) (uid text : String) : Except AppState Out :=
  let activity_name := pyStrip (pySlice3 text)
  if activity_name == "" then
    .ok ⟨s, [.text "請輸入副本名稱，例如：副本 副本"], 0⟩
  else
    .ok ⟨⟨s.db, setState s.user_states uid ⟨"datetime", activity_name⟩⟩,
      [create_datetime_picker_flex], 0⟩

/-- The `副本` list branch. -/
def doList (s : AppState) : Except AppState Out :=
  match create_activities_list_flex s.db with
  | some m => .ok ⟨s, [m], 0⟩
  | none => .error s

/-- The body of the second (effective) `handle_text_message`
registration, inside its `try:`.  Errors carry the state at the raise. -/
def handle_text_message_core (cf : Bool) (s : AppState) (uid text : String) :
    Except AppState Out :=
  match classifyText text with
  | .addP => doAddParticipant cf s uid text
  | .help => .ok ⟨s, [.text helpText], 0⟩
  | .deleteAllConfirm => .ok ⟨s, [deleteAllConfirmCard], 0⟩
  | .removeP => doRemoveParticipant cf s text
  | .createStart => doCreateStart s uid text
  | .list => doList s
  | .silent => .ok ⟨s, [], 0⟩

/-- The `select_date` postback branch: the completion step of the
creation flow.  `pdt` is `event.postback.params['datetime']` (`none`
models the `KeyError` when the postback carries no datetime parameter). -/
def doSelectDate (cf : Bool) (s : AppState) (uid : String) (pdt : Option String) :
    Except AppState Out :=
  match pdt with
  | none => .error s
  | some datetime_selected =>
    match lookupState s.user_states uid with
    | some st =>
      if st.step == "datetime" then
        if st.name == "" then
          .ok ⟨s, [.text "副本創建失敗，請重新輸入"], 0⟩
        else
          if cf then .error s else
          let a : Activity := ⟨s.db.nextAid, st.name, datetime_selected, uid⟩
          let db' : DB := { s.db with
            activities := s.db.activities ++ [a], nextAid := s.db.nextAid + 1 }
          let s' : AppState := ⟨db', delState s.user_states uid⟩
          match create_activities_list_flex db' with
          | some m => .ok ⟨s', [m], 1⟩
          | none => .error s'
      else .ok ⟨s, [.text "無法識別副本，請重新開始"], 0⟩
    | none => .ok ⟨s, [.text "無法識別副本，請重新開始"], 0⟩

/-- The `join_activity&id=<n>` postback branch.  Note the missing `else`
in the source: an unresolved id yields no reply at all. -/
def doJoin (cf : Bool) (prof : String → Option String)
    (s : AppState) (uid data : String) : Except AppState Out :=
  match parseId data with
  | none => .error s
  | some activity_id =>
    match s.db.activities.find? (fun a => a.id == activity_id) with
    | none => .ok ⟨s, [], 0⟩
    | some activity =>
        let user_name := resolveName prof uid
        match s.db.participants.find? (fun p =>
            p.activity_id == activity_id && p.user_id == uid) with
        | some _ =>
          .ok ⟨s, [.text ("➜" ++ activity.name ++ "：" ++ user_name ++ " 已報名")], 0⟩
        | none =>
          if cf then .error s else
          let p : Participant := ⟨s.db.nextPid, uid, user_name, activity_id⟩
          let db' : DB := { s.db with
            participants := s.db.participants ++ [p], nextPid := s.db.nextPid + 1 }
          let cnt := (db'.participants.filter (fun q => q.activity_id == activity.id)).length
          .ok ⟨⟨db', s.user_states⟩,
            [.text ("➜" ++ activity.name ++ "：" ++ user_name ++
              " 已成功報名\n副本時間：" ++ activity.datetime ++
              "\n目前參加人數：" ++ toString cnt)], 1⟩

/-- The `cancel_join&id=<n>` postback branch; an unresolved id is an
explicit early `return` (silent no-op) in the source. -/
def doCancelJoin (cf : Bool) (prof : String → Option String)
    (s : AppState) (uid data : String) : Except AppState Out :=
  match parseId data with
  | none => .error s
  | some activity_id =>
    match s.db.activities.find? (fun a => a.id == activity_id) with
    | none => .ok ⟨s, [], 0⟩
    | some activity =>
      let user_name := resolveName prof uid
      match s.db.participants.find? (fun p =>
          p.activity_id == activity_id && p.user_id == uid) with
      | some part =>
        -- the source reads `participant.activity.name`: the backref
        -- resolves `part.activity_id` (= activity_id) to this same row
        if cf then .error s else
        let db' : DB := { s.db with
          participants := s.db.participants.filter (fun q => q.id != part.id) }
        .ok ⟨⟨db', s.user_states⟩,
          [.text ("➜" ++ activity.name ++ "：" ++ user_name ++ " 已取消報名")], 1⟩
      | none =>
        .ok ⟨s, [.text ("➜" ++ activity.name ++ "：" ++ user_name ++ " 尚未報名")], 0⟩

/-- The `delete_activity&id=<n>` postback branch: only the creator may
delete; its participants are deleted first, then the activity.  An
unresolved id yields no reply (missing `else` in the source). -/
def doDeleteActivity (cf : Bool) (prof : String → Option String)
    (s : AppState) (uid data : String) : Except AppState Out :=
  match parseId data with
  | none => .error s
  | some activity_id =>
    match s.db.activities.find? (fun a => a.id == activity_id) with
    | none => .ok ⟨s, [], 0⟩
    | some activity =>
      if activity.creator_id == uid then
        if cf then .error s else
        let db' : DB := { s.db with
          activities := s.db.activities.filter (fun a => a.id != activity_id),
          participants := s.db.participants.filter (fun p => p.activity_id != activity_id) }
        .ok ⟨⟨db', s.user_states⟩, [.text ("➜" ++ activity.name ++ "：已刪除")], 1⟩
      else
        let user_name := resolveName prof uid
        .ok ⟨s, [.text ("➜" ++ activity.name ++ "：" ++ user_name ++ " 無刪除權限")], 0⟩

/-- The `view_participants&id=<n>` postback branch.  An unresolved id
yields no reply (missing `else` in the source). -/
def doViewParticipants (s : AppState) (data : String) : Except AppState Out :=
  match parseId data with
  | none => .error s
  | some activity_id =>
    match s.db.activities.find? (fun a => a.id == activity_id) with
    | none => .ok ⟨s, [], 0⟩
    | some activity =>
      let parts := s.db.participants.filter (fun p => p.activity_id == activity_id)
      let participant_list := joinWith "\n" (parts.map (fun p => "✓ " ++ p.user_name))
      .ok ⟨s, [.text ("➜" ++ activity.name ++ " 報名名單\n副本時間：" ++
        activity.datetime ++ "\n參加人數：" ++ toString parts.length ++
        "人\n-----------------\n" ++ participant_list)], 0⟩

/-- The `confirm_delete_all` postback branch: deletes every participant
and every activity with no guard whatsoever. -/
def doConfirmDeleteAll (cf : Bool) (s : AppState) : Except AppState Out :=
  if cf then .error s else
  .ok ⟨⟨{ s.db with participants := [], activities := [] }, s.user_states⟩,
    [.text "所有副本已刪除"], 1⟩

/-- The body of `handle_postback`, inside its `try:`: the `if/elif`
chain on substring containment in `data`, in source order. -/
def handle_postback_core (cf : Bool) (prof : String → Option String)
    (s : AppState) (uid data : String) (pdt : Option String) :
    Except AppState Out :=
  match classify data with
  | .selectDate => doSelectDate cf s uid pdt
  | .join => doJoin cf prof s uid data
  | .cancelJoin => doCancelJoin cf prof s uid data
  | .deleteAct => doDeleteActivity cf prof s uid data
  | .viewParts => doViewParticipants s data
  | .confirmDeleteAll => doConfirmDeleteAll cf s
  | .cancelDeleteAll => .ok ⟨s, [.text "已取消刪除所有副本"], 0⟩
  | .unknown => .ok ⟨s, [], 0⟩

/-- `handle_text_message` with its `try/except` boundary: a raise is
logged and suppressed, no reply is sent. -/
def handle_text_message (cf : Bool) (s : AppState) (uid text : String) :
    AppState × List Msg :=
  match handle_text_message_core cf s uid text with
  | .ok o => (o.state, o.msgs)
  | .error st => (st, [])

/-- `handle_postback` with its `try/except` boundary. -/
def handle_postback (cf : Bool) (prof : String → Option String)
    (s : AppState) (uid data : String) (pdt : Option String) :
    AppState × List Msg :=
  match handle_postback_core cf prof s uid data pdt with
  | .ok o => (o.state, o.msgs)
  | .error st => (st, [])

/-- An inbound webhook event. -/
inductive Event where
  | textMsg (uid text : String)
  | postback (uid data : String) (pdt : Option String)
deriving Repr, DecidableEq

def handle_event_core (cf : Bool) (prof : String → Option String)
    (s : AppState) : Event → Except AppState Out
  | .textMsg uid text => handle_text_message_core cf s uid text
  | .postback uid data pdt => handle_postback_core cf prof s uid data pdt

def handle_event (cf : Bool) (prof : String → Option String)
    (s : AppState) : Event → AppState × List Msg
  | .textMsg uid text => handle_text_message cf s uid text
  | .postback uid data pdt => handle_postback cf prof s uid data pdt

/-- The `/callback` route: dispatch the event (its handler already
swallows its own exceptions) and acknowledge with `'OK'` regardless. -/
def callback (cf : Bool) (prof : String → Option String)
    (s : AppState) (e : Event) : String × AppState × List Msg :=
  ("OK", handle_event cf prof s e)

/-- Referential integrity of the store: every participant row points at
an existing activity row. -/
def noOrphan (db : DB) : Bool :=
  db.participants.all (fun p => db.activities.any (fun a => a.id == p.activity_id))

/-! ### Helper lemmas -/

theorem lookupState_set_same (us : List (String × UserState)) (uid : String)
    (st : UserState) : lookupState (setState us uid st) uid = some st := by
  simp [lookupState, setState, List.find?_cons_of_pos]

theorem lookupState_del_same (us : List (String × UserState)) (uid : String) :
    lookupState (delState us uid) uid = none := by
  have h : (us.filter (fun e => e.1 != uid)).find? (fun e => e.1 == uid) = none := by
    rw [List.find?_eq_none]
    intro e he
    simp only [List.mem_filter, bne_iff_ne, ne_eq] at he
    simp [he.2]
  simp [lookupState, delState, h]

theorem find?_none_filter_eq_nil {α : Type} (p : α → Bool) (l : List α)
    (h : l.find? p = none) : l.filter p = [] := by
  rw [List.find?_eq_none] at h
  exact List.filter_eq_nil_iff.mpr h

theorem find?_none_any_false {α : Type} (p : α → Bool) (l : List α)
    (h : l.find? p = none) : l.any p = false := by
  rw [List.find?_eq_none] at h
  simp only [List.any_eq_false]
  exact h

end LineApp

namespace LineApp

/-- A text message matching none of the command patterns. -/
def textNoCommand (text : String) : Bool := classifyText text == .silent

/-- A postback whose embedded `&id=` value parses but resolves to no
activity row. -/
def idUnresolved (db : DB) (data : String) : Bool :=
  match parseId data with
  | some aid => !(db.activities.any (fun a => a.id == aid))
  | none => false

/-- The silent no-op cases exactly as the claim enumerates them: a text
message matching no command pattern, and a `cancel_join` postback whose
activity id resolves to no activity. -/
def claimedSilent (s : AppState) : Event → Bool
  | .textMsg _ text => textNoCommand text
  | .postback _ data _ => classify data == .cancelJoin && idUnresolved s.db data

/-- The silent no-op cases the code actually exhibits: additionally a
postback with an unrecognized action tag, and `join_activity`,
`delete_activity` and `view_participants` postbacks whose id resolves to
no activity. -/
def actualSilent (s : AppState) : Event → Bool
  | .textMsg _ text => textNoCommand text
  | .postback _ data _ =>
    classify data == .unknown ||
    ((classify data == .join || classify data == .cancelJoin ||
      classify data == .deleteAct || classify data == .viewParts) &&
      idUnresolved s.db data)

theorem ite_cond_false {α : Sort u} (a b : α) :
    (if (false = true) then a else b) = b := rfl

theorem doAddParticipant_ok_shape (s : AppState) (uid text : String) (o : Out)
    (h : doAddParticipant false s uid text = .ok o) :
    o.commits ≤ 1 ∧ o.msgs.length = 1 := by
  unfold doAddParticipant at h
  simp only [ite_cond_false] at h
  repeat' split at h
  all_goals (cases h; simp)

theorem doRemoveParticipant_ok_shape (s : AppState) (text : String) (o : Out)
    (h : doRemoveParticipant false s text = .ok o) :
    o.commits ≤ 1 ∧ o.msgs.length = 1 := by
  unfold doRemoveParticipant at h
  simp only [ite_cond_false] at h
  repeat' split at h
  all_goals (cases h; simp)

theorem doCreateStart_ok_shape (s : AppState) (uid text : String) (o : Out)
    (h : doCreateStart s uid text = .ok o) :
    o.commits ≤ 1 ∧ o.msgs.length = 1 := by
  simp only [doCreateStart] at h
  split at h
  all_goals (cases h; simp)

theorem doList_ok_shape (s : AppState) (o : Out)
    (h : doList s = .ok o) : o.commits ≤ 1 ∧ o.msgs.length = 1 := by
  unfold doList at h
  split at h
  · cases h; simp
  · exact Except.noConfusion h

theorem doSelectDate_ok_shape (s : AppState) (uid : String) (pdt : Option String)
    (o : Out) (h : doSelectDate false s uid pdt = .ok o) :
    o.commits ≤ 1 ∧ o.msgs.length = 1 := by
  unfold doSelectDate at h
  simp only [ite_cond_false] at h
  repeat' split at h
  all_goals first
    | exact Except.noConfusion h
    | (cases h; simp)

theorem doJoin_ok_shape (prof : String → Option String) (s : AppState)
    (uid data : String) (o : Out) (h : doJoin false prof s uid data = .ok o) :
    o.commits ≤ 1 ∧
      (o.msgs.length = 1 ∨ (o.msgs = [] ∧ idUnresolved s.db data = true)) := by
  unfold doJoin at h
  simp only [ite_cond_false] at h
  split at h
  · exact Except.noConfusion h
  next aid hpid =>
    split at h
    next hfind =>
      cases h
      exact ⟨by simp,
        Or.inr ⟨rfl, by simp [idUnresolved, hpid, find?_none_any_false _ _ hfind]⟩⟩
    next activity hfind =>
      split at h
      next hmem => cases h; exact ⟨by simp, Or.inl rfl⟩
      next hmem => cases h; exact ⟨by simp, Or.inl rfl⟩

theorem doCancelJoin_ok_shape (prof : String → Option String) (s : AppState)
    (uid data : String) (o : Out) (h : doCancelJoin false prof s uid data = .ok o) :
    o.commits ≤ 1 ∧
      (o.msgs.length = 1 ∨ (o.msgs = [] ∧ idUnresolved s.db data = true)) := by
  unfold doCancelJoin at h
  simp only [ite_cond_false] at h
  split at h
  · exact Except.noConfusion h
  next aid hpid =>
    split at h
    next hfind =>
      cases h
      exact ⟨by simp,
        Or.inr ⟨rfl, by simp [idUnresolved, hpid, find?_none_any_false _ _ hfind]⟩⟩
    next activity hfind =>
      split at h
      next hmem => cases h; exact ⟨by simp, Or.inl rfl⟩
      next hmem => cases h; exact ⟨by simp, Or.inl rfl⟩

theorem doDeleteActivity_ok_shape (prof : String → Option String) (s : AppState)
    (uid data : String) (o : Out)
    (h : doDeleteActivity false prof s uid data = .ok o) :
    o.commits ≤ 1 ∧
      (o.msgs.length = 1 ∨ (o.msgs = [] ∧ idUnresolved s.db data = true)) := by
  unfold doDeleteActivity at h
  simp only [ite_cond_false] at h
  split at h
  · exact Except.noConfusion h
  next aid hpid =>
    split at h
    next hfind =>
      cases h
      exact ⟨by simp,
        Or.inr ⟨rfl, by simp [idUnresolved, hpid, find?_none_any_false _ _ hfind]⟩⟩
    next activity hfind =>
      split at h
      · cases h; exact ⟨by simp, Or.inl rfl⟩
      · cases h; exact ⟨by simp, Or.inl rfl⟩

theorem doViewParticipants_ok_shape (s : AppState) (data : String) (o : Out)
    (h : doViewParticipants s data = .ok o) :
    o.commits ≤ 1 ∧
      (o.msgs.length = 1 ∨ (o.msgs = [] ∧ idUnresolved s.db data = true)) := by
  unfold doViewParticipants at h
  split at h
  · exact Except.noConfusion h
  next aid hpid =>
    split at h
    next hfind =>
      cases h
      exact ⟨by simp,
        Or.inr ⟨rfl, by simp [idUnresolved, hpid, find?_none_any_false _ _ hfind]⟩⟩
    next activity hfind => cases h; exact ⟨by simp, Or.inl rfl⟩

/-- The program state surviving one event: the handler's result state,
or — when the handler raised — the state at the raise. -/
def resultState (r : Except AppState Out) : AppState :=
  match r with
  | .ok o => o.state
  | .error st => st

theorem handle_event_fst (cf : Bool) (prof : String → Option String)
    (s : AppState) (e : Event) :
    (handle_event cf prof s e).1 = resultState (handle_event_core cf prof s e) := by
  cases e with
  | textMsg uid text =>
    simp only [handle_event, handle_event_core, handle_text_message]
    cases handle_text_message_core cf s uid text <;> rfl
  | postback uid data pdt =>
    simp only [handle_event, handle_event_core, handle_postback]
    cases handle_postback_core cf prof s uid data pdt <;> rfl

theorem noOrphan_iff (db : DB) : noOrphan db = true ↔
    ∀ p, p ∈ db.participants →
      ∃ a, a ∈ db.activities ∧ (a.id == p.activity_id) = true := by
  simp [noOrphan, List.all_eq_true, List.any_eq_true]

theorem noOrphan_filter_parts (db : DB) (q : Participant → Bool)
    (h : noOrphan db = true) :
    noOrphan { db with participants := db.participants.filter q } = true := by
  rw [noOrphan_iff] at h ⊢
  intro p hp
  exact h p (List.mem_of_mem_filter hp)

theorem noOrphan_append_one (db : DB) (p0 : Participant) (n : Nat)
    (h : noOrphan db = true)
    (hex : ∃ a, a ∈ db.activities ∧ (a.id == p0.activity_id) = true) :
    noOrphan { db with participants := db.participants ++ [p0], nextPid := n } =
      true := by
  rw [noOrphan_iff] at h ⊢
  intro p hp
  rcases List.mem_append.mp hp with hp | hp
  · exact h p hp
  · cases List.mem_singleton.mp hp
    exact hex

theorem noOrphan_append_act (db : DB) (a : Activity) (n : Nat)
    (h : noOrphan db = true) :
    noOrphan { db with activities := db.activities ++ [a], nextAid := n } = true := by
  rw [noOrphan_iff] at h ⊢
  intro p hp
  obtain ⟨x, hx, hid⟩ := h p hp
  exact ⟨x, List.mem_append_left _ hx, hid⟩

theorem noOrphan_delete_act (db : DB) (aid : Nat) (h : noOrphan db = true) :
    noOrphan { db with
      activities := db.activities.filter (fun a => a.id != aid),
      participants := db.participants.filter (fun p => p.activity_id != aid) } =
      true := by
  rw [noOrphan_iff] at h ⊢
  intro p hp
  rw [List.mem_filter] at hp
  obtain ⟨hmem, hneq⟩ := hp
  obtain ⟨x, hx, hid⟩ := h p hmem
  refine ⟨x, List.mem_filter.mpr ⟨hx, ?_⟩, hid⟩
  have h1 : x.id = p.activity_id := by simpa using hid
  simpa [bne_iff_ne, h1] using hneq

theorem noOrphan_wipe (db : DB) :
    noOrphan { db with participants := [], activities := [] } = true := by
  rw [noOrphan_iff]
  intro p hp
  simp at hp

theorem doAddParticipant_noOrphan (cf : Bool) (s : AppState) (uid text : String)
    (h : noOrphan s.db = true) :
    noOrphan (resultState (doAddParticipant cf s uid text)).db = true := by
  unfold doAddParticipant
  split
  next an pn hsp =>
    split
    next activity hfind =>
      split
      · exact h
      · split
        · exact h
        · refine noOrphan_append_one s.db _ _ h
            ⟨activity, List.mem_of_find?_eq_some hfind, ?_⟩
          simp
    next => exact h
  next => exact h

theorem doRemoveParticipant_noOrphan (cf : Bool) (s : AppState) (text : String)
    (h : noOrphan s.db = true) :
    noOrphan (resultState (doRemoveParticipant cf s text)).db = true := by
  unfold doRemoveParticipant
  split
  next an pn hsp =>
    split
    next activity hfind =>
      split
      · split
        · exact h
        · exact noOrphan_filter_parts s.db _ h
      · exact h
    next => exact h
  next => exact h

theorem doCreateStart_noOrphan (s : AppState) (uid text : String)
    (h : noOrphan s.db = true) :
    noOrphan (resultState (doCreateStart s uid text)).db = true := by
  simp only [doCreateStart]
  split
  · exact h
  · exact h

theorem doList_noOrphan (s : AppState) (h : noOrphan s.db = true) :
    noOrphan (resultState (doList s)).db = true := by
  unfold doList
  split
  · exact h
  · exact h

theorem doSelectDate_noOrphan (cf : Bool) (s : AppState) (uid : String)
    (pdt : Option String) (h : noOrphan s.db = true) :
    noOrphan (resultState (doSelectDate cf s uid pdt)).db = true := by
  unfold doSelectDate
  split
  · exact h
  next dt =>
    split
    next st hlk =>
      split
      · split
        · exact h
        · split
          · exact h
          · cases hcm : create_activities_list_flex
                { s.db with
                  activities := s.db.activities ++
                    [{ id := s.db.nextAid, name := st.name, datetime := dt,
                       creator_id := uid }],
                  nextAid := s.db.nextAid + 1 } <;>
              · simp only [hcm, resultState]
                exact noOrphan_append_act s.db _ _ h
      · exact h
    next => exact h

theorem doJoin_noOrphan (cf : Bool) (prof : String → Option String)
    (s : AppState) (uid data : String) (h : noOrphan s.db = true) :
    noOrphan (resultState (doJoin cf prof s uid data)).db = true := by
  unfold doJoin
  split
  · exact h
  next aid hpid =>
    split
    · exact h
    next activity hfind =>
      split
      · exact h
      · split
        · exact h
        · refine noOrphan_append_one s.db _ _ h
            ⟨activity, List.mem_of_find?_eq_some hfind, ?_⟩
          simpa using List.find?_some hfind

theorem doCancelJoin_noOrphan (cf : Bool) (prof : String → Option String)
    (s : AppState) (uid data : String) (h : noOrphan s.db = true) :
    noOrphan (resultState (doCancelJoin cf prof s uid data)).db = true := by
  unfold doCancelJoin
  split
  · exact h
  next aid hpid =>
    split
    · exact h
    next activity hfind =>
      split
      · split
        · exact h
        · exact noOrphan_filter_parts s.db _ h
      · exact h

theorem doDeleteActivity_noOrphan (cf : Bool) (prof : String → Option String)
    (s : AppState) (uid data : String) (h : noOrphan s.db = true) :
    noOrphan (resultState (doDeleteActivity cf prof s uid data)).db = true := by
  unfold doDeleteActivity
  split
  · exact h
  next aid hpid =>
    split
    · exact h
    next activity hfind =>
      split
      · split
        · exact h
        · exact noOrphan_delete_act s.db aid h
      · exact h

theorem doViewParticipants_noOrphan (s : AppState) (data : String)
    (h : noOrphan s.db = true) :
    noOrphan (resultState (doViewParticipants s data)).db = true := by
  unfold doViewParticipants
  split
  · exact h
  next aid hpid =>
    split
    · exact h
    · exact h

theorem doConfirmDeleteAll_noOrphan (cf : Bool) (s : AppState)
    (h : noOrphan s.db = true) :
    noOrphan (resultState (doConfirmDeleteAll cf s)).db = true := by
  unfold doConfirmDeleteAll
  split
  · exact h
  · exact noOrphan_wipe s.db

/-! ### Claims -/

/-- C10: a `confirm_delete_all` postback is entirely unguarded — for
every invoking user, profile resolver and store state it empties both
tables (leaving the conversation states and the id counters alone) and
replies with the global confirmation text; no precondition relates the
invoker to any prior delete-all command or to any activity's creator. -/
theorem confirm_delete_all_unguarded (prof : String → Option String)
    (s : AppState) (uid : String) (pdt : Option String) :
    handle_postback false prof s uid "action=confirm_delete_all" pdt =
      (⟨{ s.db with activities := [], participants := [] }, s.user_states⟩,
       [.text "所有副本已刪除"]) := by
  have h : classify "action=confirm_delete_all" = .confirmDeleteAll := by decide
  simp [handle_postback, handle_postback_core, h, doConfirmDeleteAll]

/-- C2: a `select_date` postback from a user with no conversation-state
entry (or an entry whose step is not the awaiting-date-time tag
`'datetime'`) replies with the must-restart text「無法識別副本，請重新開始」
and leaves the whole state — in particular the Activity store —
unchanged. -/
theorem select_date_without_state_rejected (prof : String → Option String)
    (s : AppState) (uid data T : String)
    (hcls : classify data = .selectDate)
    (hstate : lookupState s.user_states uid = none ∨
      ∃ st, lookupState s.user_states uid = some st ∧ st.step ≠ "datetime") :
    handle_postback false prof s uid data (some T) =
      (s, [.text "無法識別副本，請重新開始"]) := by
  rcases hstate with h | ⟨st, h, hstep⟩
  · simp [handle_postback, handle_postback_core, hcls, doSelectDate, h]
  · have hb : (st.step == "datetime") = false := beq_eq_false_iff_ne.mpr hstep
    simp [handle_postback, handle_postback_core, hcls, doSelectDate, h, hb]

/-- C2 witness: on the empty state, with no conversation entry for the
user, the must-restart reply is produced and nothing changes. -/
theorem select_date_without_state_rejected_witness :
    handle_postback false (fun _ => none) ⟨⟨[], [], 1, 1⟩, []⟩ "u"
        "action=select_date" (some "2024-01-01 20:00") =
      (⟨⟨[], [], 1, 1⟩, []⟩, [.text "無法識別副本，請重新開始"]) :=
  select_date_without_state_rejected (fun _ => none) ⟨⟨[], [], 1, 1⟩, []⟩ "u"
    "action=select_date" "2024-01-01 20:00" (by decide) (Or.inl (by decide))

/-- C1: for any user U and any starting state, a create-start text
command whose stripped remainder is the non-empty name N, followed by a
`select_date` postback carrying time T for the same U, has the same
effect on the Activity store as creating `Activity(name=N, datetime=T,
creator_id=U)` exactly once — one new row, participants untouched — and
afterwards the conversation-state memory has no entry for U. -/
theorem create_flow_single_creation (prof : String → Option String)
    (s : AppState) (uid text N T : String)
    (hcls : classifyText text = .createStart)
    (hname : pyStrip (pySlice3 text) = N) (hN : N ≠ "") :
    ((handle_postback false prof (handle_text_message false s uid text).1 uid
        "action=select_date" (some T)).1.db =
      { s.db with activities := s.db.activities ++ [⟨s.db.nextAid, N, T, uid⟩],
                  nextAid := s.db.nextAid + 1 }) ∧
    lookupState (handle_postback false prof (handle_text_message false s uid text).1 uid
        "action=select_date" (some T)).1.user_states uid = none := by
  have hb : (N == "") = false := beq_eq_false_iff_ne.mpr hN
  have h1 : handle_text_message false s uid text =
      (⟨s.db, setState s.user_states uid ⟨"datetime", N⟩⟩,
       [create_datetime_picker_flex]) := by
    simp [handle_text_message, handle_text_message_core, hcls, doCreateStart, hname, hb]
  have hcls2 : classify "action=select_date" = PAction.selectDate := by decide
  have h2 : (handle_postback false prof
      ⟨s.db, setState s.user_states uid ⟨"datetime", N⟩⟩ uid
      "action=select_date" (some T)).1 =
      ⟨{ s.db with activities := s.db.activities ++ [⟨s.db.nextAid, N, T, uid⟩],
                   nextAid := s.db.nextAid + 1 },
        delState (setState s.user_states uid ⟨"datetime", N⟩) uid⟩ := by
    simp only [handle_postback, handle_postback_core, hcls2, doSelectDate,
      lookupState_set_same, hb]
    cases create_activities_list_flex _ <;> simp
  rw [h1]
  refine ⟨?_, ?_⟩
  · rw [h2]
  · rw [h2]
    exact lookupState_del_same _ _

/-- C1 witness: from the empty state, `副本 打牌` followed by picking
`2024-01-01 20:00` creates exactly the one activity and clears the
user's conversation state. -/
theorem create_flow_single_creation_witness :
    ((handle_postback false (fun _ => none)
        (handle_text_message false ⟨⟨[], [], 1, 1⟩, []⟩ "u" "副本 打牌").1 "u"
        "action=select_date" (some "2024-01-01 20:00")).1.db =
      { activities := [⟨1, "打牌", "2024-01-01 20:00", "u"⟩], participants := [],
        nextAid := 2, nextPid := 1 }) ∧
    lookupState (handle_postback false (fun _ => none)
        (handle_text_message false ⟨⟨[], [], 1, 1⟩, []⟩ "u" "副本 打牌").1 "u"
        "action=select_date" (some "2024-01-01 20:00")).1.user_states "u" = none :=
  create_flow_single_creation (fun _ => none) ⟨⟨[], [], 1, 1⟩, []⟩ "u" "副本 打牌"
    "打牌" "2024-01-01 20:00" (by decide) (by decide) (by decide)

/-- C3: joining is idempotent.  For a `join_activity` postback whose id
resolves to activity `a` and a user not yet registered there, processing
it twice leaves exactly one participant row for (activity, user); the
second invocation replies with the already-joined text and performs no
store mutation at all. -/
theorem join_twice_idempotent (prof : String → Option String)
    (s : AppState) (uid data : String) (aid : Nat) (a : Activity)
    (pdt pdt2 : Option String)
    (hcls : classify data = .join) (hid : parseId data = some aid)
    (hact : s.db.activities.find? (fun x => x.id == aid) = some a)
    (hnomem : s.db.participants.find?
      (fun p => p.activity_id == aid && p.user_id == uid) = none) :
    (((handle_postback false prof s uid data pdt).1.db.participants.filter
        (fun p => p.activity_id == aid && p.user_id == uid)).length = 1) ∧
    handle_postback false prof (handle_postback false prof s uid data pdt).1
        uid data pdt2 =
      ((handle_postback false prof s uid data pdt).1,
       [.text ("➜" ++ a.name ++ "：" ++ resolveName prof uid ++ " 已報名")]) := by
  have h1 : (handle_postback false prof s uid data pdt).1 =
      ⟨{ s.db with
          participants := s.db.participants ++
            [⟨s.db.nextPid, uid, resolveName prof uid, aid⟩],
          nextPid := s.db.nextPid + 1 }, s.user_states⟩ := by
    simp [handle_postback, handle_postback_core, hcls, doJoin, hid, hact, hnomem]
  have hnil : s.db.participants.filter
      (fun p => p.activity_id == aid && p.user_id == uid) = [] :=
    find?_none_filter_eq_nil _ _ hnomem
  constructor
  · rw [h1]
    simp [List.filter_append, hnil]
  · rw [h1]
    simp [handle_postback, handle_postback_core, hcls, doJoin, hid, hact,
      List.find?_append, hnomem]

/-- C3 witness: user `v` joins activity 1 twice from a one-activity
store; one participant row results and the second reply is the
already-joined text. -/
theorem join_twice_idempotent_witness :
    (((handle_postback false (fun _ => none)
        ⟨⟨[⟨1, "A", "2024-01-01 20:00", "u"⟩], [], 2, 1⟩, []⟩ "v"
        "action=join_activity&id=1" none).1.db.participants.filter
        (fun p => p.activity_id == 1 && p.user_id == "v")).length = 1) ∧
    handle_postback false (fun _ => none)
        (handle_postback false (fun _ => none)
          ⟨⟨[⟨1, "A", "2024-01-01 20:00", "u"⟩], [], 2, 1⟩, []⟩ "v"
          "action=join_activity&id=1" none).1 "v"
        "action=join_activity&id=1" none =
      ((handle_postback false (fun _ => none)
          ⟨⟨[⟨1, "A", "2024-01-01 20:00", "u"⟩], [], 2, 1⟩, []⟩ "v"
          "action=join_activity&id=1" none).1,
       [.text ("➜" ++ "A" ++ "：" ++ resolveName (fun _ => none) "v" ++ " 已報名")]) :=
  join_twice_idempotent (fun _ => none)
    ⟨⟨[⟨1, "A", "2024-01-01 20:00", "u"⟩], [], 2, 1⟩, []⟩ "v"
    "action=join_activity&id=1" 1 ⟨1, "A", "2024-01-01 20:00", "u"⟩ none none
    (by decide) (by decide) (by decide) (by decide)

/-- C4: a `delete_activity` postback whose id resolves to activity `a`
deletes `a` and its participants exactly when the invoker is the
creator; any other invoker gets the permission-denied text naming the
resolved display name, and both the activity row and every participant
row persist unchanged. -/
theorem delete_activity_creator_only (prof : String → Option String)
    (s : AppState) (uid data : String) (aid : Nat) (a : Activity)
    (pdt : Option String)
    (hcls : classify data = .deleteAct) (hid : parseId data = some aid)
    (hact : s.db.activities.find? (fun x => x.id == aid) = some a) :
    (a.creator_id = uid →
      handle_postback false prof s uid data pdt =
        (⟨{ s.db with
            activities := s.db.activities.filter (fun x => x.id != aid),
            participants := s.db.participants.filter (fun p => p.activity_id != aid) },
          s.user_states⟩,
         [.text ("➜" ++ a.name ++ "：已刪除")])) ∧
    (a.creator_id ≠ uid →
      handle_postback false prof s uid data pdt =
        (s, [.text ("➜" ++ a.name ++ "：" ++ resolveName prof uid ++ " 無刪除權限")])) := by
  constructor
  · intro hcr
    have hb : (a.creator_id == uid) = true := beq_iff_eq.mpr hcr
    simp [handle_postback, handle_postback_core, hcls, doDeleteActivity, hid, hact, hb]
  · intro hcr
    have hb : (a.creator_id == uid) = false := beq_eq_false_iff_ne.mpr hcr
    simp [handle_postback, handle_postback_core, hcls, doDeleteActivity, hid, hact, hb]

/-- C4 witness: on a store with one activity created by `u` and one
participant, the non-creator `w` is denied (state unchanged) and the
creator `u` deletes the activity together with its participant. -/
theorem delete_activity_creator_only_witness :
    (("u" : String) ≠ "w" ∧
      handle_postback false (fun _ => none)
        ⟨⟨[⟨1, "A", "2024-01-01 20:00", "u"⟩], [⟨1, "v", "v", 1⟩], 2, 2⟩, []⟩ "w"
        "action=delete_activity&id=1" none =
      (⟨⟨[⟨1, "A", "2024-01-01 20:00", "u"⟩], [⟨1, "v", "v", 1⟩], 2, 2⟩, []⟩,
       [.text ("➜" ++ "A" ++ "：" ++ resolveName (fun _ => none) "w" ++ " 無刪除權限")])) ∧
    handle_postback false (fun _ => none)
        ⟨⟨[⟨1, "A", "2024-01-01 20:00", "u"⟩], [⟨1, "v", "v", 1⟩], 2, 2⟩, []⟩ "u"
        "action=delete_activity&id=1" none =
      (⟨{ (⟨[⟨1, "A", "2024-01-01 20:00", "u"⟩], [⟨1, "v", "v", 1⟩], 2, 2⟩ : DB) with
          activities := List.filter (fun x => x.id != 1)
            [⟨1, "A", "2024-01-01 20:00", "u"⟩],
          participants := List.filter (fun p => p.activity_id != 1) [⟨1, "v", "v", 1⟩] },
        []⟩,
       [.text ("➜" ++ "A" ++ "：已刪除")]) :=
  ⟨⟨by decide,
    (delete_activity_creator_only (fun _ => none)
      ⟨⟨[⟨1, "A", "2024-01-01 20:00", "u"⟩], [⟨1, "v", "v", 1⟩], 2, 2⟩, []⟩ "w"
      "action=delete_activity&id=1" 1 ⟨1, "A", "2024-01-01 20:00", "u"⟩ none
      (by decide) (by decide) (by decide)).2 (by decide)⟩,
   (delete_activity_creator_only (fun _ => none)
      ⟨⟨[⟨1, "A", "2024-01-01 20:00", "u"⟩], [⟨1, "v", "v", 1⟩], 2, 2⟩, []⟩ "u"
      "action=delete_activity&id=1" 1 ⟨1, "A", "2024-01-01 20:00", "u"⟩ none
      (by decide) (by decide) (by decide)).1 (by decide)⟩

/-- C6: the free-text `+ [副本名稱] [人員名稱]` command with exactly two
arguments, when the activity name resolves (first match), keys duplicate
detection on the given display name under that activity: an existing
participant with that `user_name` yields the already-registered text and
no change; otherwise a participant whose `user_id` is the *invoking*
user and whose `user_name` is the given name is created, and the reply
carries the updated headcount (old count + 1). -/
theorem add_participant_keyed_on_name (s : AppState) (uid text w an pn : String)
    (a : Activity)
    (hcls : classifyText text = .addP)
    (hsplit : pySplit ' ' text = [w, an, pn])
    (hact : s.db.activities.find? (fun x => x.name == an) = some a) :
    ((∃ q, s.db.participants.find?
        (fun p => p.activity_id == a.id && p.user_name == pn) = some q) →
      handle_text_message false s uid text =
        (s, [.text ("➜" ++ an ++ "：" ++ pn ++ " 已存在報名名單中")])) ∧
    (s.db.participants.find?
        (fun p => p.activity_id == a.id && p.user_name == pn) = none →
      handle_text_message false s uid text =
        (⟨{ s.db with
            participants := s.db.participants ++ [⟨s.db.nextPid, uid, pn, a.id⟩],
            nextPid := s.db.nextPid + 1 }, s.user_states⟩,
         [.text ("➜" ++ an ++ "：" ++ pn ++ " 已成功報名\n副本時間：" ++ a.datetime ++
           "\n目前參加人數：" ++
           toString ((s.db.participants.filter
             (fun p => p.activity_id == a.id)).length + 1))])) := by
  constructor
  · rintro ⟨q, hq⟩
    simp [handle_text_message, handle_text_message_core, hcls, doAddParticipant,
      hsplit, hact, hq]
  · intro hnone
    simp [handle_text_message, handle_text_message_core, hcls, doAddParticipant,
      hsplit, hact, hnone, List.filter_append]

/-- C6 witness: `+ A 小明` on a store holding activity `A` with one
other participant registers 小明 under the invoker's user id with
headcount 2. -/
theorem add_participant_keyed_on_name_witness :
    handle_text_message false
        ⟨⟨[⟨1, "A", "2024-01-01 20:00", "u"⟩], [⟨1, "v", "v", 1⟩], 2, 2⟩, []⟩ "u"
        "+ A 小明" =
      (⟨{ (⟨[⟨1, "A", "2024-01-01 20:00", "u"⟩], [⟨1, "v", "v", 1⟩], 2, 2⟩ : DB) with
          participants := [⟨1, "v", "v", 1⟩] ++ [⟨2, "u", "小明", 1⟩],
          nextPid := 2 + 1 }, []⟩,
       [.text ("➜" ++ "A" ++ "：" ++ "小明" ++ " 已成功報名\n副本時間：" ++
         "2024-01-01 20:00" ++ "\n目前參加人數：" ++
         toString ((List.filter (fun p => p.activity_id == 1)
           [(⟨1, "v", "v", 1⟩ : Participant)]).length + 1))]) :=
  (add_participant_keyed_on_name
    ⟨⟨[⟨1, "A", "2024-01-01 20:00", "u"⟩], [⟨1, "v", "v", 1⟩], 2, 2⟩, []⟩ "u"
    "+ A 小明" "+" "A" "小明" ⟨1, "A", "2024-01-01 20:00", "u"⟩
    (by decide) (by decide) (by decide)).2 (by decide)

/-- C8 (amended): after the creator's `delete_activity&id=X`, no
participant row referencing X remains; a subsequent
`view_participants&id=X` postback is a silent no-op — it produces no
reply at all and changes nothing (the source reports nothing when the
activity is absent). -/
theorem delete_then_view_silent (prof prof2 : String → Option String)
    (s : AppState) (uid uid2 data data2 : String) (aid : Nat) (a : Activity)
    (pdt pdt2 : Option String)
    (hcls : classify data = .deleteAct) (hid : parseId data = some aid)
    (hact : s.db.activities.find? (fun x => x.id == aid) = some a)
    (hcr : a.creator_id = uid)
    (hcls2 : classify data2 = .viewParts) (hid2 : parseId data2 = some aid) :
    ((handle_postback false prof s uid data pdt).1.db.participants.filter
        (fun p => p.activity_id == aid) = []) ∧
    handle_postback false prof2 (handle_postback false prof s uid data pdt).1
        uid2 data2 pdt2 =
      ((handle_postback false prof s uid data pdt).1, []) := by
  have hb : (a.creator_id == uid) = true := beq_iff_eq.mpr hcr
  have h1 : (handle_postback false prof s uid data pdt).1 =
      ⟨{ s.db with
          activities := s.db.activities.filter (fun x => x.id != aid),
          participants := s.db.participants.filter (fun p => p.activity_id != aid) },
        s.user_states⟩ := by
    simp [handle_postback, handle_postback_core, hcls, doDeleteActivity, hid, hact, hb]
  have hfa : (s.db.activities.filter (fun x => x.id != aid)).find?
      (fun x => x.id == aid) = none := by
    rw [List.find?_eq_none]
    intro x hx
    simp only [List.mem_filter, bne_iff_ne, ne_eq] at hx
    simp [hx.2]
  constructor
  · rw [h1]
    apply List.filter_eq_nil_iff.mpr
    intro p hp
    simp only [List.mem_filter, bne_iff_ne, ne_eq] at hp
    simp [hp.2]
  · rw [h1]
    simp [handle_postback, handle_postback_core, hcls2, doViewParticipants, hid2, hfa]

/-- C8 witness: creator `u` deletes activity 1 (which had one
participant); no participant row for activity 1 remains and the
follow-up roster request from `v` is answered with nothing. -/
theorem delete_then_view_silent_witness :
    ((handle_postback false (fun _ => none)
        ⟨⟨[⟨1, "A", "2024-01-01 20:00", "u"⟩], [⟨1, "v", "v", 1⟩], 2, 2⟩, []⟩ "u"
        "action=delete_activity&id=1" none).1.db.participants.filter
        (fun p => p.activity_id == 1) = []) ∧
    handle_postback false (fun _ => none)
        (handle_postback false (fun _ => none)
          ⟨⟨[⟨1, "A", "2024-01-01 20:00", "u"⟩], [⟨1, "v", "v", 1⟩], 2, 2⟩, []⟩ "u"
          "action=delete_activity&id=1" none).1 "v"
        "action=view_participants&id=1" none =
      ((handle_postback false (fun _ => none)
          ⟨⟨[⟨1, "A", "2024-01-01 20:00", "u"⟩], [⟨1, "v", "v", 1⟩], 2, 2⟩, []⟩ "u"
          "action=delete_activity&id=1" none).1, []) :=
  delete_then_view_silent (fun _ => none) (fun _ => none)
    ⟨⟨[⟨1, "A", "2024-01-01 20:00", "u"⟩], [⟨1, "v", "v", 1⟩], 2, 2⟩, []⟩ "u" "v"
    "action=delete_activity&id=1" "action=view_participants&id=1" 1
    ⟨1, "A", "2024-01-01 20:00", "u"⟩ none none
    (by decide) (by decide) (by decide) (by decide) (by decide) (by decide)

/-- C8 counterexample: the claim asserts that `view_participants&id=X`
after X's deletion yields a not-found *text reply*; in fact the reply
list is empty — the user is told nothing. -/
theorem view_after_delete_no_reply :
    ((handle_postback false (fun _ => none)
        (handle_postback false (fun _ => none)
          ⟨⟨[⟨1, "A", "2024-01-01 20:00", "u"⟩], [⟨1, "v", "v", 1⟩], 2, 2⟩, []⟩ "u"
          "action=delete_activity&id=1" none).1 "v"
        "action=view_participants&id=1" none).2 = []) ∧
    ∀ t : String, (handle_postback false (fun _ => none)
        (handle_postback false (fun _ => none)
          ⟨⟨[⟨1, "A", "2024-01-01 20:00", "u"⟩], [⟨1, "v", "v", 1⟩], 2, 2⟩, []⟩ "u"
          "action=delete_activity&id=1" none).1 "v"
        "action=view_participants&id=1" none).2 ≠ [Msg.text t] := by
  refine ⟨rfl, ?_⟩
  intro t h
  rw [show (handle_postback false (fun _ => none)
        (handle_postback false (fun _ => none)
          ⟨⟨[⟨1, "A", "2024-01-01 20:00", "u"⟩], [⟨1, "v", "v", 1⟩], 2, 2⟩, []⟩ "u"
          "action=delete_activity&id=1" none).1 "v"
        "action=view_participants&id=1" none).2 = [] from rfl] at h
  exact List.noConfusion h

/-- C5: the no-orphan invariant.  If every participant row references an
existing activity row, then after processing any single event — with or
without a raise anywhere in it (`cf` arbitrary), in particular after
`delete_activity` by the creator and after `confirm_delete_all` — every
remaining participant row still references an existing activity row. -/
theorem no_orphan_preserved (cf : Bool) (prof : String → Option String)
    (s : AppState) (e : Event) (h : noOrphan s.db = true) :
    noOrphan (handle_event cf prof s e).1.db = true := by
  rw [handle_event_fst]
  cases e with
  | textMsg uid text =>
    show noOrphan (resultState (handle_text_message_core cf s uid text)).db = true
    unfold handle_text_message_core
    cases hc : classifyText text
    · exact doAddParticipant_noOrphan cf s uid text h
    · exact h
    · exact h
    · exact doRemoveParticipant_noOrphan cf s text h
    · exact doCreateStart_noOrphan s uid text h
    · exact doList_noOrphan s h
    · exact h
  | postback uid data pdt =>
    show noOrphan (resultState (handle_postback_core cf prof s uid data pdt)).db = true
    unfold handle_postback_core
    cases hc : classify data
    · exact doSelectDate_noOrphan cf s uid pdt h
    · exact doJoin_noOrphan cf prof s uid data h
    · exact doCancelJoin_noOrphan cf prof s uid data h
    · exact doDeleteActivity_noOrphan cf prof s uid data h
    · exact doViewParticipants_noOrphan s data h
    · exact doConfirmDeleteAll_noOrphan cf s h
    · exact h
    · exact h

/-- C5 witness: deleting activity 1 (which has a participant) by its
creator leaves a store with no orphaned participant. -/
theorem no_orphan_preserved_witness :
    noOrphan (handle_event false (fun _ => none)
      ⟨⟨[⟨1, "A", "2024-01-01 20:00", "u"⟩], [⟨1, "v", "v", 1⟩], 2, 2⟩, []⟩
      (.postback "u" "action=delete_activity&id=1" none)).1.db = true :=
  no_orphan_preserved false (fun _ => none)
    ⟨⟨[⟨1, "A", "2024-01-01 20:00", "u"⟩], [⟨1, "v", "v", 1⟩], 2, 2⟩, []⟩
    (.postback "u" "action=delete_activity&id=1" none) (by decide)

/-- C7 counterexample: the claim allows exactly two silent no-op cases
(a text matching no pattern, and `cancel_join` with an unresolved id).
But a `view_participants` postback whose id resolves to no activity
also completes without raising, performs no mutation and emits no
reply — and it is not one of the two claimed cases. -/
theorem view_unresolved_not_claimed_silent :
    (handle_event_core false (fun _ => none) ⟨⟨[], [], 1, 1⟩, []⟩
        (.postback "u" "action=view_participants&id=1" none) =
      .ok ⟨⟨⟨[], [], 1, 1⟩, []⟩, [], 0⟩) ∧
    claimedSilent ⟨⟨[], [], 1, 1⟩, []⟩
      (.postback "u" "action=view_participants&id=1" none) = false :=
  ⟨rfl, by decide⟩

/-- C7 (amended): every event whose processing does not raise performs
at most one commit transaction and emits exactly one reply, except in
the silent no-op cases the code actually has: a text message matching no
command pattern, a postback with an unrecognized action tag, and a
`join_activity`/`cancel_join`/`delete_activity`/`view_participants`
postback whose id resolves to no activity. -/
theorem one_commit_one_reply_amended (prof : String → Option String)
    (s : AppState) (e : Event) (o : Out)
    (h : handle_event_core false prof s e = .ok o) :
    o.commits ≤ 1 ∧
      (o.msgs.length = 1 ∨ (o.msgs = [] ∧ actualSilent s e = true)) := by
  cases e with
  | textMsg uid text =>
    simp only [handle_event_core, handle_text_message_core] at h
    cases hc : classifyText text <;> rw [hc] at h
    case addP =>
      obtain ⟨h1, h2⟩ := doAddParticipant_ok_shape s uid text o h
      exact ⟨h1, Or.inl h2⟩
    case help => cases h; simp
    case deleteAllConfirm => cases h; simp
    case removeP =>
      obtain ⟨h1, h2⟩ := doRemoveParticipant_ok_shape s text o h
      exact ⟨h1, Or.inl h2⟩
    case createStart =>
      obtain ⟨h1, h2⟩ := doCreateStart_ok_shape s uid text o h
      exact ⟨h1, Or.inl h2⟩
    case list =>
      obtain ⟨h1, h2⟩ := doList_ok_shape s o h
      exact ⟨h1, Or.inl h2⟩
    case silent =>
      cases h
      exact ⟨by simp, Or.inr ⟨rfl, by simp [actualSilent, textNoCommand, hc]⟩⟩
  | postback uid data pdt =>
    simp only [handle_event_core, handle_postback_core] at h
    cases hc : classify data <;> rw [hc] at h
    case selectDate =>
      obtain ⟨h1, h2⟩ := doSelectDate_ok_shape s uid pdt o h
      exact ⟨h1, Or.inl h2⟩
    case join =>
      obtain ⟨h1, h2⟩ := doJoin_ok_shape prof s uid data o h
      refine ⟨h1, ?_⟩
      rcases h2 with h2 | ⟨hm, hu⟩
      · exact Or.inl h2
      · exact Or.inr ⟨hm, by simp [actualSilent, hc, hu]⟩
    case cancelJoin =>
      obtain ⟨h1, h2⟩ := doCancelJoin_ok_shape prof s uid data o h
      refine ⟨h1, ?_⟩
      rcases h2 with h2 | ⟨hm, hu⟩
      · exact Or.inl h2
      · exact Or.inr ⟨hm, by simp [actualSilent, hc, hu]⟩
    case deleteAct =>
      obtain ⟨h1, h2⟩ := doDeleteActivity_ok_shape prof s uid data o h
      refine ⟨h1, ?_⟩
      rcases h2 with h2 | ⟨hm, hu⟩
      · exact Or.inl h2
      · exact Or.inr ⟨hm, by simp [actualSilent, hc, hu]⟩
    case viewParts =>
      obtain ⟨h1, h2⟩ := doViewParticipants_ok_shape s data o h
      refine ⟨h1, ?_⟩
      rcases h2 with h2 | ⟨hm, hu⟩
      · exact Or.inl h2
      · exact Or.inr ⟨hm, by simp [actualSilent, hc, hu]⟩
    case confirmDeleteAll => cases h; simp
    case cancelDeleteAll => cases h; simp
    case unknown =>
      cases h
      exact ⟨by simp, Or.inr ⟨rfl, by simp [actualSilent, hc]⟩⟩

/-- C7 witness: the list command「副本」on the empty store processes
without raising, commits nothing and emits exactly one reply. -/
theorem one_commit_one_reply_amended_witness :
    (⟨⟨⟨[], [], 1, 1⟩, []⟩, [Msg.text "目前沒有任何副本"], 0⟩ : Out).commits ≤ 1 ∧
      ((⟨⟨⟨[], [], 1, 1⟩, []⟩, [Msg.text "目前沒有任何副本"], 0⟩ : Out).msgs.length = 1 ∨
       ((⟨⟨⟨[], [], 1, 1⟩, []⟩, [Msg.text "目前沒有任何副本"], 0⟩ : Out).msgs = [] ∧
        actualSilent ⟨⟨[], [], 1, 1⟩, []⟩ (.textMsg "u" "副本") = true)) :=
  one_commit_one_reply_amended (fun _ => none) ⟨⟨[], [], 1, 1⟩, []⟩
    (.textMsg "u" "副本") ⟨⟨⟨[], [], 1, 1⟩, []⟩, [Msg.text "目前沒有任何副本"], 0⟩ rfl

/-- C9: a raise anywhere inside event processing (the fault oracle `cf`
makes every `db.session.commit()` raise; malformed ids, missing datetime
parameters and the renderer's `IndexError` raise as well) is caught at
the handler's `try/except` boundary: the user receives no reply, and the
`/callback` endpoint still acknowledges with `'OK'`. -/
theorem exceptions_suppressed_ack_ok (cf : Bool) (prof : String → Option String)
    (s : AppState) (e : Event) (st : AppState)
    (herr : handle_event_core cf prof s e = .error st) :
    (callback cf prof s e).1 = "OK" ∧ (callback cf prof s e).2.2 = [] := by
  refine ⟨rfl, ?_⟩
  cases e with
  | textMsg uid text =>
    simp only [handle_event_core] at herr
    simp [callback, handle_event, handle_text_message, herr]
  | postback uid data pdt =>
    simp only [handle_event_core] at herr
    simp [callback, handle_event, handle_postback, herr]

/-- C9 witness: with a failing commit, a join postback on a store
holding the activity raises at the commit; the reply list is empty and
the endpoint answers `'OK'`. -/
theorem exceptions_suppressed_ack_ok_witness :
    (callback true (fun _ => none)
        ⟨⟨[⟨1, "A", "2024-01-01 20:00", "u"⟩], [], 2, 1⟩, []⟩
        (.postback "v" "action=join_activity&id=1" none)).1 = "OK" ∧
    (callback true (fun _ => none)
        ⟨⟨[⟨1, "A", "2024-01-01 20:00", "u"⟩], [], 2, 1⟩, []⟩
        (.postback "v" "action=join_activity&id=1" none)).2.2 = [] :=
  exceptions_suppressed_ack_ok true (fun _ => none)
    ⟨⟨[⟨1, "A", "2024-01-01 20:00", "u"⟩], [], 2, 1⟩, []⟩
    (.postback "v" "action=join_activity&id=1" none)
    ⟨⟨[⟨1, "A", "2024-01-01 20:00", "u"⟩], [], 2, 1⟩, []⟩ (by rfl)

end LineApp
